import Mathlib

/-!
Verification of the zato connector / pub-sub delivery code.

Part 1 models the pub/sub delivery queue consumed by the services in
src/code/zato-server/src/zato/server/service/internal/pubsub/queue.py
(classes GetMessages and AcknowledgeDelivery).  The SQL-level functions
get_messages and acknowledge_delivery live in zato.common.odb.query_ps_queue,
which is not part of the sources; they are modelled from the specification.

Part 2 models the WebSphere MQ connection container in
src/code/zato-server/src/zato/server/connection/jms_wmq/jms/container.py:
the registry operations add_conn_def / _on_DEFINITION_JMS_WMQ_DELETE, the
credential check check_credentials and the WSGI entry point on_wsgi_request.
-/

namespace Zato

/-- A durable record of the message store, as described by the data model:
msg_id (unique), sub_key, expiration_time (absolute, in ms), recv_time,
delivery_count, and the delivery state, of which only the terminal
acknowledged flag matters to the delivery protocol. -/
structure StoredMessage where
  msg_id : Nat
  sub_key : Nat
  expiration_time : Nat
  recv_time : Nat
  delivery_count : Nat
  acked : Bool
deriving DecidableEq, Repr

/-- An in-arrival-order message store: the list order is the arrival order. -/
abbrev MessageStore := List StoredMessage

/-- A record is eligible for delivery to sub_key at time now when it belongs
to that sub_key, is not yet acknowledged and has not expired as of now. -/
def eligible (m : StoredMessage) (sub_key now : Nat) : Bool :=
  m.sub_key == sub_key && !m.acked && now < m.expiration_time

/-- Increment the delivery count of one record. -/
def incDelivery (m : StoredMessage) : StoredMessage :=
  { m with delivery_count := m.delivery_count + 1 }

/-- Modelled from the spec: get_messages of zato.common.odb.query_ps_queue is
not under the sources.  Per the spec, fetchBatch selects up to batch_size
messages for sub_key that are not yet acknowledged and not expired as of now,
in arrival order, and increments the delivery_count of each selected message
as part of the call.  Returns the selected records (with their updated
counts) together with the updated store. -/
def get_messages : MessageStore → Nat → Nat → Nat → List StoredMessage × MessageStore
  | [], _, _, _ => ([], [])
  | m :: rest, sub_key, batch, now =>
    if batch = 0 then
      ([], m :: rest)
    else if eligible m sub_key now then
      let p := get_messages rest sub_key (batch - 1) now
      (incDelivery m :: p.1, incDelivery m :: p.2)
    else
      let p := get_messages rest sub_key batch now
      (p.1, m :: p.2)

/-- Modelled from the spec: acknowledge_delivery of
zato.common.odb.query_ps_queue is not under the sources.  Per the spec, it
marks each message of msg_id_list as acknowledged for that sub_key,
and only for that sub_key; records of other subscribers are unaffected. -/
def acknowledge_delivery (store : MessageStore) (sub_key : Nat)
    (msg_id_list : List Nat) : MessageStore :=
  store.map fun m =>
    if m.sub_key == sub_key && msg_id_list.contains m.msg_id then
      { m with acked := true }
    else m

/-- Modelled from the spec: the constant PUBSUB.DEFAULT.GET_BATCH_SIZE of
zato.common is not under the sources; the spec and the docstring of the
GetMessages service both fix it at 100. -/
def GET_BATCH_SIZE : Nat := 100

/-- The batch-size resolution of GetMessages.handle: the Python expression
input.batch_size or _batch_size yields the default when batch_size is
missing or falsy (0), and the supplied value otherwise. -/
def resolveBatchSize (batch_size : Option Nat) : Nat :=
  match batch_size with
  | none => GET_BATCH_SIZE
  | some 0 => GET_BATCH_SIZE
  | some n => n

/-- GetMessages.handle from queue.py: resolves the batch size, then calls
get_messages with the sub_key, the resolved batch size and the current
time, and commits.  Returns the selected records and the new store. -/
def GetMessagesHandle (store : MessageStore) (sub_key : Nat)
    (batch_size : Option Nat) (now : Nat) : List StoredMessage × MessageStore :=
  get_messages store sub_key (resolveBatchSize batch_size) now

/-- AcknowledgeDelivery.handle from queue.py: when msg_id_list is non-empty
it opens a session, calls acknowledge_delivery and commits; when the list is
empty it does nothing at all.  The Bool records whether a write was issued
to the store. -/
def AcknowledgeDeliveryHandle (store : MessageStore) (sub_key : Nat)
    (msg_id_list : List Nat) : MessageStore × Bool :=
  if msg_id_list.isEmpty then
    (store, false)
  else
    (acknowledge_delivery store sub_key msg_id_list, true)

/-- Look a record up by its msg_id (first match in arrival order). -/
def findMsg (store : MessageStore) (id : Nat) : Option StoredMessage :=
  store.find? fun m => m.msg_id == id

/-! Part 2: the connection container of container.py. -/

/-- A live connection held by the registry, abstracting WebSphereMQConnection
(an external collaborator): its defining config name and whether connect()
has succeeded on it. -/
structure WMQConnection where
  name : String
  connected : Bool
deriving DecidableEq, Repr

/-- A connection definition config as passed to add_conn_def.  connectOk is
the oracle for whether the underlying broker connect() call succeeds for
these connection parameters (the broker is an external collaborator). -/
structure ConnConfig where
  name : String
  connectOk : Bool
deriving DecidableEq, Repr

/-- The container registry self.connections: a Python dict from definition
name to live connection, modelled as an association list in insertion
order. -/
abbrev Registry := List (String × WMQConnection)

/-- Python dict lookup. -/
def dictGet (d : Registry) (k : String) : Option WMQConnection :=
  (d.find? fun p => p.1 == k).map (·.2)

/-- Python dict assignment d[k] = v: overwrites the entry in place when the
key exists, appends otherwise.  The association lists modelling a dict
never carry a key twice, exactly as a Python dict cannot. -/
def dictSet : Registry → String → WMQConnection → Registry
  | [], k, v => [(k, v)]
  | (a, b) :: d, k, v =>
    if a == k then (k, v) :: d else (a, b) :: dictSet d k v

/-- An exception escaping a container registry operation. -/
inductive ContainerError
  | connectionError
deriving DecidableEq, Repr

/-- add_conn_def from container.py: under the lock it constructs a
WebSphereMQConnection from the config, calls connect() (whose failure
raises, leaving the registry untouched), then stores the connection in
self.connections under config.name with a plain dict assignment.  The
source performs no uniqueness check on the name. -/
def add_conn_def (reg : Registry) (config : ConnConfig) :
    Except ContainerError Registry :=
  if config.connectOk then
    .ok (dictSet reg config.name ⟨config.name, true⟩)
  else
    .error .connectionError

/-- The handler _on_DEFINITION_JMS_WMQ_DELETE from container.py: its entire
body is the statement pass, so it performs no registry change at all. -/
def _on_DEFINITION_JMS_WMQ_DELETE (reg : Registry) (_msg_name : String) :
    Registry :=
  reg

/-! The control API HTTP boundary of container.py. -/

/-- Status line for 200, as built from httplib constants in container.py. -/
def _http_200 : String := "200 OK"

/-- Status line for 400. -/
def _http_400 : String := "400 Bad Request"

/-- Status line for 403. -/
def _http_403 : String := "403 Forbidden"

/-- Status line for 500. -/
def _http_500 : String := "500 Internal Server Error"

/-- Digit value of a character, via its code point. -/
def digitVal? (c : Char) : Option Nat :=
  let n := c.toNat
  if 48 <= n && n <= 57 then some (n - 48) else none

/-- Python int() applied to a CONTENT_LENGTH header value, which carries a
nonnegative decimal when well-formed; any other shape raises ValueError,
modelled as none. -/
def pyIntNat? (s : String) : Option Nat :=
  match s.data.mapM digitVal? with
  | none => none
  | some [] => none
  | some ds => some (ds.foldl (fun acc d => acc * 10 + d) 0)

/-- A Python exception escaping some step of the WSGI try block. -/
inductive PyExn
  | keyError
  | valueError
  | requestExn
deriving DecidableEq, Repr

/-- The request body as handle_http_request sees it after the WSGI input is
read: either it parses as JSON to a message carrying an action field, or
parsing / attribute access raises. -/
inductive RequestBody
  | action (a : String)
  | malformed
deriving DecidableEq, Repr

/-- The WSGI environ fields on_wsgi_request touches.  content_length is
optional because environ may lack the CONTENT_LENGTH key, in which case the
subscript environ[CONTENT_LENGTH] raises KeyError.  http_authorization
carries the already-parsed basic-auth pair (parse_basic_auth of
zato.common.auth_util is external). -/
structure Environ where
  content_length : Option String
  http_authorization : Option (String × String)
  body : RequestBody
deriving DecidableEq, Repr

/-- An HTTP response as assembled by on_wsgi_request: the status line passed
to start_response, the body and the content type header. -/
structure Response where
  status : String
  body : String
  content_type : String
deriving DecidableEq, Repr

/-- Which observable side effects the request processing performed: whether
the WSGI input was read, whether check_credentials ran, and whether the
request was dispatched to handle_http_request. -/
structure Effects where
  bodyRead : Bool
  credsChecked : Bool
  dispatched : Bool
deriving DecidableEq, Repr

/-- No side effect at all. -/
def noEffects : Effects := ⟨false, false, false⟩

/-- check_credentials from container.py.  Its body begins with an
unconditional return True; the username and password comparison below that
line is unreachable dead code, although the docstring of the function says
it returns True only for valid credentials. -/
def check_credentials (_auth : Option (String × String))
    (_username _password : String) : Bool :=
  true

/-- The unreachable comparison that follows the return True inside
check_credentials, i.e. the check its docstring describes: the parsed
username and password must both equal the expected ones. -/
def credentials_valid (auth : Option (String × String))
    (username password : String) : Bool :=
  match auth with
  | none => false
  | some (u, p) => u == username && p == password

/-- handle_http_request from container.py: logs the message, parses it as
JSON, reads its action attribute and answers OK; a malformed body makes the
parse or the attribute access raise. -/
def handle_http_request (data : RequestBody) : Except PyExn String :=
  match data with
  | .action _ => .ok "OK"
  | .malformed => .error .requestExn

/-- The try block of on_wsgi_request, step by step: read CONTENT_LENGTH
(KeyError when absent), answer 400 Missing content when it is empty,
otherwise read the body (int() on a malformed length raises ValueError),
run check_credentials, and on success dispatch to handle_http_request for a
200, else answer 403.  The Effects record what ran before any exception. -/
def wsgi_try (username password : String) (env : Environ) :
    Except PyExn Response × Effects :=
  match env.content_length with
  | none => (.error .keyError, noEffects)
  | some cl =>
    if cl = "" then
      (.ok ⟨_http_400, "Missing content", "text/plain"⟩, noEffects)
    else
      match pyIntNat? cl with
      | none => (.error .valueError, noEffects)
      | some _ =>
        let data := env.body
        if check_credentials env.http_authorization username password then
          match handle_http_request data with
          | .ok resp => (.ok ⟨_http_200, resp, "text/json"⟩, ⟨true, true, true⟩)
          | .error e => (.error e, ⟨true, true, true⟩)
        else
          (.ok ⟨_http_403, "You are not allowed to access this resource",
            "text/plain"⟩, ⟨true, true, false⟩)

/-- on_wsgi_request from container.py: the try block above wrapped in the
except Exception handler that turns any escaping exception into a 500
Internal server error response.  Total: every request yields a response. -/
def on_wsgi_request (username password : String) (env : Environ) :
    Response × Effects :=
  match wsgi_try username password env with
  | (.ok r, eff) => (r, eff)
  | (.error _, eff) => (⟨_http_500, "Internal server error", "text/plain"⟩, eff)

/-- The serving loop of run(): wsgiref serve_forever hands every incoming
request to on_wsgi_request in turn; a request never terminates the loop. -/
def serve (username password : String) (reqs : List Environ) : List Response :=
  reqs.map fun env => (on_wsgi_request username password env).1

/-! Helper lemmas. -/

/-- Unfolding of the eligibility test into propositions. -/
lemma eligible_spec {m : StoredMessage} {k now : Nat} (h : eligible m k now = true) :
    m.sub_key = k ∧ m.acked = false ∧ now < m.expiration_time := by
  simp only [eligible, Bool.and_eq_true, beq_iff_eq, Bool.not_eq_true',
    decide_eq_true_eq] at h
  tauto

/-- Acknowledging twice is the same as acknowledging once at the level of
the raw store update. -/
lemma acknowledge_delivery_ack_ack (store : MessageStore) (sub_key : Nat)
    (msg_id_list : List Nat) :
    acknowledge_delivery (acknowledge_delivery store sub_key msg_id_list)
        sub_key msg_id_list =
      acknowledge_delivery store sub_key msg_id_list := by
  unfold acknowledge_delivery
  rw [List.map_map]
  apply List.map_congr_left
  intro m _
  simp only [Function.comp]
  by_cases h : (m.sub_key == sub_key && msg_id_list.contains m.msg_id) = true
  · rw [if_pos h]
    have h2 : (({ m with acked := true } : StoredMessage).sub_key == sub_key &&
        msg_id_list.contains ({ m with acked := true } : StoredMessage).msg_id) =
          true := h
    rw [if_pos h2]
  · rw [if_neg h, if_neg h]

/-- findMsg on a cons whose head carries the looked-up id. -/
lemma findMsg_cons_self {hd : StoredMessage} {rest : MessageStore} {id : Nat}
    (h : hd.msg_id = id) : findMsg (hd :: rest) id = some hd := by
  unfold findMsg
  rw [List.find?_cons_of_pos]
  simp [h]

/-- findMsg on a cons whose head does not carry the looked-up id. -/
lemma findMsg_cons_ne {hd : StoredMessage} {rest : MessageStore} {id : Nat}
    (h : hd.msg_id ≠ id) : findMsg (hd :: rest) id = findMsg rest id := by
  unfold findMsg
  rw [List.find?_cons_of_neg]
  simp [h]

/-- Every record returned by get_messages carries the msg_id of some record
of the store it was drawn from. -/
lemma get_messages_sel_ids (store : MessageStore) (sub_key n now : Nat) :
    ∀ m ∈ (get_messages store sub_key n now).1,
      m.msg_id ∈ store.map (fun x => x.msg_id) := by
  induction store generalizing n with
  | nil => simp [get_messages]
  | cons hd rest ih =>
    intro m hm
    by_cases hn0 : n = 0
    · subst hn0
      simp [get_messages] at hm
    · by_cases he : eligible hd sub_key now
      · simp only [get_messages, if_neg hn0, if_pos he, List.mem_cons] at hm
        rcases hm with rfl | hm
        · simp [incDelivery]
        · simp only [List.map_cons, List.mem_cons]
          exact Or.inr (ih (n - 1) m hm)
      · simp only [get_messages, if_neg hn0, if_neg he] at hm
        simp only [List.map_cons, List.mem_cons]
        exact Or.inr (ih n m hm)

/-- With unique msg_ids, each record returned by get_messages corresponds to
a stored record whose delivery_count the updated store shows incremented by
exactly one. -/
lemma get_messages_find_inc (store : MessageStore) (sub_key n now : Nat)
    (hnd : (store.map (fun m => m.msg_id)).Nodup) :
    ∀ m ∈ (get_messages store sub_key n now).1,
      ∃ old, findMsg store m.msg_id = some old ∧
        findMsg (get_messages store sub_key n now).2 m.msg_id =
          some { old with delivery_count := old.delivery_count + 1 } := by
  induction store generalizing n with
  | nil => simp [get_messages]
  | cons hd rest ih =>
    have hnd2 : (rest.map (fun m => m.msg_id)).Nodup := by
      simp only [List.map_cons, List.nodup_cons] at hnd
      exact hnd.2
    have hhd : hd.msg_id ∉ rest.map (fun m => m.msg_id) := by
      simp only [List.map_cons, List.nodup_cons] at hnd
      exact hnd.1
    intro m hm
    by_cases hn0 : n = 0
    · subst hn0
      simp [get_messages] at hm
    · by_cases he : eligible hd sub_key now
      · simp only [get_messages, if_neg hn0, if_pos he, List.mem_cons] at hm ⊢
        rcases hm with rfl | hm
        · refine ⟨hd, ?_, ?_⟩
          · exact findMsg_cons_self (by simp [incDelivery])
          · rw [findMsg_cons_self (by simp [incDelivery] : (incDelivery hd).msg_id =
              (incDelivery hd).msg_id)]
            simp [incDelivery]
        · obtain ⟨old, h1, h2⟩ := ih (n - 1) hnd2 m hm
          have hne : m.msg_id ≠ hd.msg_id := by
            intro heq
            exact hhd (heq ▸ get_messages_sel_ids rest sub_key (n - 1) now m hm)
          refine ⟨old, ?_, ?_⟩
          · rw [findMsg_cons_ne (Ne.symm hne)]
            exact h1
          · rw [findMsg_cons_ne (by simpa [incDelivery] using Ne.symm hne :
              (incDelivery hd).msg_id ≠ m.msg_id)]
            exact h2
      · simp only [get_messages, if_neg hn0, if_neg he] at hm ⊢
        obtain ⟨old, h1, h2⟩ := ih n hnd2 m hm
        have hne : m.msg_id ≠ hd.msg_id := by
          intro heq
          exact hhd (heq ▸ get_messages_sel_ids rest sub_key n now m hm)
        refine ⟨old, ?_, ?_⟩
        · rw [findMsg_cons_ne (Ne.symm hne)]
          exact h1
        · rw [findMsg_cons_ne (Ne.symm hne)]
          exact h2

/-- A msg_id that get_messages did not return resolves to the same record
in the updated store as in the original one. -/
lemma get_messages_find_unchanged (store : MessageStore) (sub_key n now : Nat) :
    ∀ id : Nat,
      id ∉ (get_messages store sub_key n now).1.map (fun m => m.msg_id) →
      findMsg (get_messages store sub_key n now).2 id = findMsg store id := by
  induction store generalizing n with
  | nil => simp [get_messages]
  | cons hd rest ih =>
    intro id hid
    by_cases hn0 : n = 0
    · simp [get_messages, hn0]
    · by_cases he : eligible hd sub_key now
      · simp only [get_messages, if_neg hn0, if_pos he, List.map_cons,
          List.mem_cons, not_or] at hid ⊢
        obtain ⟨hid1, hid2⟩ := hid
        have hne1 : (incDelivery hd).msg_id ≠ id := fun h => hid1 h.symm
        have hne2 : hd.msg_id ≠ id := by simpa [incDelivery] using hne1
        rw [findMsg_cons_ne hne1, findMsg_cons_ne hne2]
        exact ih (n - 1) id hid2
      · simp only [get_messages, if_neg hn0, if_neg he] at hid ⊢
        by_cases hdid : hd.msg_id = id
        · rw [findMsg_cons_self hdid, findMsg_cons_self hdid]
        · rw [findMsg_cons_ne hdid, findMsg_cons_ne hdid]
          exact ih n id hid

/-- Acknowledgment never changes any delivery_count. -/
lemma ack_preserves_delivery_count (st : MessageStore) (k : Nat) (l : List Nat) :
    (AcknowledgeDeliveryHandle st k l).1.map (fun m => m.delivery_count) =
      st.map (fun m => m.delivery_count) := by
  by_cases h : l.isEmpty
  · simp [AcknowledgeDeliveryHandle, h]
  · simp only [AcknowledgeDeliveryHandle, if_neg h]
    unfold acknowledge_delivery
    rw [List.map_map]
    apply List.map_congr_left
    intro m _
    simp only [Function.comp]
    by_cases hc : (m.sub_key == k && l.contains m.msg_id) = true
    · rw [if_pos hc]
    · rw [if_neg hc]

/-! Claim theorems. -/

/-- C1: for every sub_key, batch size n and time now, get_messages returns
at most n records, and every returned record is unacknowledged, unexpired
as of now, and belongs to the requested sub_key. -/
theorem getMessages_batch_bound_unacked_unexpired (store : MessageStore)
    (sub_key n now : Nat) :
    (get_messages store sub_key n now).1.length ≤ n ∧
    ∀ m ∈ (get_messages store sub_key n now).1,
      m.acked = false ∧ now < m.expiration_time ∧ m.sub_key = sub_key := by
  induction store generalizing n with
  | nil => simp [get_messages]
  | cons hd rest ih =>
    by_cases hn0 : n = 0
    · subst hn0; simp [get_messages]
    · by_cases he : eligible hd sub_key now
      · obtain ⟨hlen, hmem⟩ := ih (n - 1)
        simp only [get_messages, if_neg hn0, if_pos he]
        constructor
        · simpa using Nat.add_le_of_le_sub (Nat.one_le_iff_ne_zero.mpr hn0) hlen
        · intro m hm
          rcases List.mem_cons.mp hm with rfl | hm
          · obtain ⟨h1, h2, h3⟩ := eligible_spec he
            exact ⟨by simpa [incDelivery] using h2, by simpa [incDelivery] using h3,
              by simpa [incDelivery] using h1⟩
          · exact hmem m hm
      · obtain ⟨hlen, hmem⟩ := ih n
        simp only [get_messages, if_neg hn0, if_neg he]
        exact ⟨hlen, hmem⟩

/-- C2: acknowledging the same msg_id_list twice leaves the store in the
same end state as acknowledging it once, and acknowledging records that are
all already acknowledged changes nothing at all. -/
theorem acknowledgeDelivery_idempotent (store : MessageStore) (sub_key : Nat)
    (msg_id_list : List Nat) :
    (AcknowledgeDeliveryHandle
        (AcknowledgeDeliveryHandle store sub_key msg_id_list).1
        sub_key msg_id_list).1 =
      (AcknowledgeDeliveryHandle store sub_key msg_id_list).1 ∧
    ((∀ m ∈ store, m.sub_key = sub_key → m.msg_id ∈ msg_id_list →
        m.acked = true) →
      acknowledge_delivery store sub_key msg_id_list = store) := by
  constructor
  · by_cases h : msg_id_list.isEmpty
    · simp [AcknowledgeDeliveryHandle, h]
    · simp only [AcknowledgeDeliveryHandle, if_neg h]
      exact acknowledge_delivery_ack_ack store sub_key msg_id_list
  · intro hall
    unfold acknowledge_delivery
    conv_rhs => rw [← List.map_id store]
    apply List.map_congr_left
    intro m hm
    by_cases h : (m.sub_key == sub_key && msg_id_list.contains m.msg_id) = true
    · have h2 := h
      simp only [Bool.and_eq_true, beq_iff_eq] at h2
      have hmem : m.msg_id ∈ msg_id_list := List.mem_of_elem_eq_true h2.2
      have hacked := hall m hm h2.1 hmem
      simp only [if_pos h, id]
      cases m
      simp_all
    · simp only [id]
      rw [if_neg h]

/-- Witness for C2 on a store whose single record is already acknowledged. -/
theorem acknowledgeDelivery_idempotent_witness :
    (∀ m ∈ ([⟨1, 5, 10, 0, 2, true⟩] : MessageStore), m.sub_key = 5 →
        m.msg_id ∈ [1] → m.acked = true) ∧
    acknowledge_delivery [⟨1, 5, 10, 0, 2, true⟩] 5 [1] =
      [⟨1, 5, 10, 0, 2, true⟩] :=
  ⟨by decide,
    (acknowledgeDelivery_idempotent [⟨1, 5, 10, 0, 2, true⟩] 5 [1]).2 (by decide)⟩

/-- C3: with unique msg_ids, a get_messages call increments the stored
delivery_count of each record it returns by exactly one, leaves every
record it does not return untouched, and acknowledgment never changes a
delivery_count: the delivery attempt is counted at fetch time, not at
acknowledgment time. -/
theorem getMessages_increments_delivery_count (store : MessageStore)
    (sub_key n now : Nat)
    (hnd : (store.map (fun m => m.msg_id)).Nodup) :
    (∀ m ∈ (get_messages store sub_key n now).1,
        ∃ old, findMsg store m.msg_id = some old ∧
          findMsg (get_messages store sub_key n now).2 m.msg_id =
            some { old with delivery_count := old.delivery_count + 1 }) ∧
    (∀ id : Nat,
        id ∉ (get_messages store sub_key n now).1.map (fun m => m.msg_id) →
        findMsg (get_messages store sub_key n now).2 id = findMsg store id) ∧
    (∀ (st : MessageStore) (k : Nat) (l : List Nat),
        (AcknowledgeDeliveryHandle st k l).1.map (fun m => m.delivery_count) =
          st.map (fun m => m.delivery_count)) :=
  ⟨get_messages_find_inc store sub_key n now hnd,
   get_messages_find_unchanged store sub_key n now,
   ack_preserves_delivery_count⟩

/-- Witness for C3 on a two-record store with distinct msg_ids. -/
theorem getMessages_increments_delivery_count_witness :
    (([⟨1, 7, 10, 0, 0, false⟩, ⟨2, 7, 10, 0, 3, false⟩] : MessageStore).map
        (fun m => m.msg_id)).Nodup ∧
    ((∀ m ∈ (get_messages [⟨1, 7, 10, 0, 0, false⟩, ⟨2, 7, 10, 0, 3, false⟩]
          7 1 5).1,
        ∃ old, findMsg [⟨1, 7, 10, 0, 0, false⟩, ⟨2, 7, 10, 0, 3, false⟩]
            m.msg_id = some old ∧
          findMsg (get_messages [⟨1, 7, 10, 0, 0, false⟩,
              ⟨2, 7, 10, 0, 3, false⟩] 7 1 5).2 m.msg_id =
            some { old with delivery_count := old.delivery_count + 1 }) ∧
    (∀ id : Nat,
        id ∉ (get_messages [⟨1, 7, 10, 0, 0, false⟩, ⟨2, 7, 10, 0, 3, false⟩]
            7 1 5).1.map (fun m => m.msg_id) →
        findMsg (get_messages [⟨1, 7, 10, 0, 0, false⟩,
            ⟨2, 7, 10, 0, 3, false⟩] 7 1 5).2 id =
          findMsg [⟨1, 7, 10, 0, 0, false⟩, ⟨2, 7, 10, 0, 3, false⟩] id) ∧
    (∀ (st : MessageStore) (k : Nat) (l : List Nat),
        (AcknowledgeDeliveryHandle st k l).1.map (fun m => m.delivery_count) =
          st.map (fun m => m.delivery_count))) :=
  ⟨by decide,
   getMessages_increments_delivery_count
     [⟨1, 7, 10, 0, 0, false⟩, ⟨2, 7, 10, 0, 3, false⟩] 7 1 5 (by decide)⟩

/-- C7: AcknowledgeDelivery.handle with an empty msg_id_list is a no-op:
the store is unchanged, no write is issued, and even the raw update
function applied to the empty list would change nothing. -/
theorem acknowledgeDelivery_empty_noop (store : MessageStore) (sub_key : Nat) :
    AcknowledgeDeliveryHandle store sub_key [] = (store, false) ∧
    acknowledge_delivery store sub_key [] = store := by
  constructor
  · simp [AcknowledgeDeliveryHandle]
  · simp [acknowledge_delivery]

/-- C8: GetMessages.handle treats a missing or falsy batch_size as the
constant 100 and uses a supplied positive batch_size unchanged. -/
theorem getMessagesHandle_default_batch_size (store : MessageStore)
    (sub_key now : Nat) :
    GetMessagesHandle store sub_key none now = get_messages store sub_key 100 now ∧
    GetMessagesHandle store sub_key (some 0) now =
      get_messages store sub_key 100 now ∧
    ∀ b : Nat, 0 < b →
      GetMessagesHandle store sub_key (some b) now =
        get_messages store sub_key b now := by
  refine ⟨rfl, rfl, ?_⟩
  intro b hb
  cases b with
  | zero => exact absurd hb (lt_irrefl 0)
  | succ k => rfl

/-- Witness for C8 at batch size 5 on the empty store. -/
theorem getMessagesHandle_default_batch_size_witness :
    0 < 5 ∧
    GetMessagesHandle [] 1 (some 5) 0 = get_messages [] 1 5 0 :=
  ⟨by decide, (getMessagesHandle_default_batch_size [] 1 0).2.2 5 (by decide)⟩

/-- Writing a key and reading it back yields the written connection. -/
lemma dictGet_dictSet_same (d : Registry) (k : String) (v : WMQConnection) :
    dictGet (dictSet d k v) k = some v := by
  induction d with
  | nil => simp [dictSet, dictGet]
  | cons p d ih =>
    obtain ⟨a, b⟩ := p
    rcases eq_or_ne a k with h | h
    · subst h
      simp [dictSet, dictGet]
    · have hb : (a == k) = false := by simpa using h
      rw [show dictSet ((a, b) :: d) k v = (a, b) :: dictSet d k v by
        simp [dictSet, hb]]
      unfold dictGet at ih ⊢
      rw [List.find?_cons_of_neg _ (by simp [hb])]
      exact ih

/-- Writing a key leaves every other key unchanged. -/
lemma dictGet_dictSet_ne (d : Registry) (k k2 : String) (v : WMQConnection)
    (hne : k2 ≠ k) : dictGet (dictSet d k v) k2 = dictGet d k2 := by
  have hkk2 : (k == k2) = false := by simpa using Ne.symm hne
  induction d with
  | nil =>
    unfold dictSet dictGet
    rw [List.find?_cons_of_neg _ (by simp [hkk2])]
  | cons p d ih =>
    obtain ⟨a, b⟩ := p
    rcases eq_or_ne a k with h | h
    · subst h
      rw [show dictSet ((a, b) :: d) a v = (a, v) :: d by simp [dictSet]]
      unfold dictGet
      rw [List.find?_cons_of_neg _ (by simp [hkk2]),
        List.find?_cons_of_neg _ (by simp [hkk2])]
    · have hb : (a == k) = false := by simpa using h
      rw [show dictSet ((a, b) :: d) k v = (a, b) :: dictSet d k v by
        simp [dictSet, hb]]
      unfold dictGet at ih ⊢
      rcases eq_or_ne a k2 with h2 | h2
      · subst h2
        rw [List.find?_cons_of_pos _ (by simp),
          List.find?_cons_of_pos _ (by simp)]
      · rw [List.find?_cons_of_neg _ (by simpa using h2),
          List.find?_cons_of_neg _ (by simpa using h2)]
        exact ih

/-- C4 (code bug evaluation): a request carrying credentials that differ
from the expected ones is nevertheless answered 200 and dispatched to
handle_http_request, because check_credentials opens with an unconditional
return True, contradicting its own docstring; the comparison it should have
run rejects those credentials. -/
theorem check_credentials_always_true_bug :
    credentials_valid (some ("eve", "wrong")) "zato-user" "zato-pass" = false ∧
    check_credentials (some ("eve", "wrong")) "zato-user" "zato-pass" = true ∧
    (on_wsgi_request "zato-user" "zato-pass"
        ⟨some "2", some ("eve", "wrong"), .action "ping"⟩).1.status = _http_200 ∧
    (on_wsgi_request "zato-user" "zato-pass"
        ⟨some "2", some ("eve", "wrong"), .action "ping"⟩).2.dispatched = true := by
  refine ⟨by decide, rfl, ?_, ?_⟩ <;> decide

/-- C5 (code bug evaluation): adding a connection definition and then
handling the delete message for the same name does not restore the
registry: the delete handler body is pass, so the live connection handle
stays registered. -/
theorem add_then_delete_leaves_connection_bug :
    add_conn_def [] ⟨"a", true⟩ = .ok [("a", ⟨"a", true⟩)] ∧
    _on_DEFINITION_JMS_WMQ_DELETE [("a", ⟨"a", true⟩)] "a" =
      [("a", ⟨"a", true⟩)] ∧
    ([("a", ⟨"a", true⟩)] : Registry) ≠ [] := by
  refine ⟨rfl, rfl, by decide⟩

/-- C6 counterexample: with the name a already registered, add_conn_def
does not fail with a name conflict; it silently replaces the registered
connection with a new one. -/
theorem add_conn_def_replaces_counterexample :
    add_conn_def [("a", ⟨"a", false⟩)] ⟨"a", true⟩ =
      .ok [("a", ⟨"a", true⟩)] ∧
    (⟨"a", true⟩ : WMQConnection) ≠ ⟨"a", false⟩ := by
  refine ⟨rfl, by decide⟩

/-- C6 amended: add_conn_def performs no uniqueness validation.  When the
underlying connect succeeds it stores the freshly connected connection
under config.name, silently replacing any existing entry of that name and
leaving every other entry unchanged; when connect fails it raises
ConnectionError and no registry change happens. -/
theorem add_conn_def_stores_connection (reg : Registry) (config : ConnConfig) :
    (config.connectOk = true →
      ∃ reg2, add_conn_def reg config = .ok reg2 ∧
        dictGet reg2 config.name = some ⟨config.name, true⟩ ∧
        ∀ k, k ≠ config.name → dictGet reg2 k = dictGet reg k) ∧
    (config.connectOk = false →
      add_conn_def reg config = .error .connectionError) := by
  constructor
  · intro hok
    refine ⟨dictSet reg config.name ⟨config.name, true⟩, ?_, ?_, ?_⟩
    · simp [add_conn_def, hok]
    · exact dictGet_dictSet_same reg config.name ⟨config.name, true⟩
    · intro k hk
      exact dictGet_dictSet_ne reg config.name k ⟨config.name, true⟩ hk
  · intro hfail
    simp [add_conn_def, hfail]

/-- Witness for the amended C6 on a one-entry registry. -/
theorem add_conn_def_stores_connection_witness :
    (⟨"a", true⟩ : ConnConfig).connectOk = true ∧
    (∃ reg2, add_conn_def [("b", ⟨"b", true⟩)] ⟨"a", true⟩ = .ok reg2 ∧
      dictGet reg2 "a" = some ⟨"a", true⟩ ∧
      ∀ k, k ≠ "a" → dictGet reg2 k = dictGet [("b", ⟨"b", true⟩)] k) :=
  ⟨rfl, (add_conn_def_stores_connection [("b", ⟨"b", true⟩)] ⟨"a", true⟩).1 rfl⟩

/-- C9: any exception escaping the try block of on_wsgi_request is caught
at the boundary and answered as 500 Internal server error, and the serving
loop answers every request in its input: no failed request terminates it. -/
theorem wsgi_exception_caught_500 (username password : String) :
    (∀ (env : Environ) (e : PyExn) (eff : Effects),
        wsgi_try username password env = (.error e, eff) →
        (on_wsgi_request username password env).1 =
          ⟨_http_500, "Internal server error", "text/plain"⟩) ∧
    (∀ reqs : List Environ,
        (serve username password reqs).length = reqs.length) := by
  constructor
  · intro env e eff h
    simp [on_wsgi_request, h]
  · intro reqs
    simp [serve]

/-- Witness for C9: a request whose body makes handle_http_request raise is
answered 500. -/
theorem wsgi_exception_caught_500_witness :
    wsgi_try "u" "p" ⟨some "2", none, .malformed⟩ =
      (.error .requestExn, ⟨true, true, true⟩) ∧
    (on_wsgi_request "u" "p" ⟨some "2", none, .malformed⟩).1 =
      ⟨_http_500, "Internal server error", "text/plain"⟩ :=
  ⟨by rfl,
   (wsgi_exception_caught_500 "u" "p").1 ⟨some "2", none, .malformed⟩
     .requestExn ⟨true, true, true⟩ (by rfl)⟩

/-- C10 counterexample: a request whose environ lacks CONTENT_LENGTH is
answered 500 Internal server error (the KeyError escapes to the boundary
handler), not a 400-class Missing content response as claimed. -/
theorem missing_content_length_counterexample :
    (on_wsgi_request "u" "p" ⟨none, none, .action "x"⟩).1 =
      ⟨_http_500, "Internal server error", "text/plain"⟩ ∧
    (on_wsgi_request "u" "p" ⟨none, none, .action "x"⟩).1.status ≠ _http_400 ∧
    (on_wsgi_request "u" "p" ⟨none, none, .action "x"⟩).1.body ≠
      "Missing content" := by
  refine ⟨rfl, by decide, by decide⟩

/-- C10 amended: an empty CONTENT_LENGTH yields 400 Missing content with no
body read, no credential check and no dispatch; an absent CONTENT_LENGTH
yields 500 Internal server error, likewise before any of those effects. -/
theorem content_length_guard (username password : String)
    (auth : Option (String × String)) (body : RequestBody) :
    on_wsgi_request username password ⟨some "", auth, body⟩ =
      (⟨_http_400, "Missing content", "text/plain"⟩, noEffects) ∧
    on_wsgi_request username password ⟨none, auth, body⟩ =
      (⟨_http_500, "Internal server error", "text/plain"⟩, noEffects) := by
  constructor <;> rfl

end Zato
